import Mathlib

/-!
Shallow embedding of `homework.py`: a single-loop Telegram notifier that
polls a homework-review API, validates the response, translates the first
homework record into a message and sends it, deduplicating against the
previously sent message.

Python values are modelled by `PyVal` (the JSON-decodable fragment),
exceptions by `PyErr`, and each source function by a Lean definition of
the same name.  Effects (HTTP, the Telegram client, the clock) are passed
in explicitly.
-/

/-- The fragment of Python values that can appear in a decoded JSON
response (plus `None`): the inputs of `check_response` / `parse_status`. -/
inductive PyVal where
  | none
  | bool (b : Bool)
  | int (n : Int)
  | str (s : String)
  | list (xs : List PyVal)
  | dict (kvs : List (String × PyVal))

/-- Python truthiness: `None`, `False`, `0`, `""`, `[]`, `{}` are falsy. -/
def pyTruthy : PyVal → Bool
  | .none => false
  | .bool b => b
  | .int n => n ≠ 0
  | .str s => s ≠ ""
  | .list xs => !xs.isEmpty
  | .dict kvs => !kvs.isEmpty

/-- First-match association-list lookup (Python dict access by key). -/
def lookupKV (kvs : List (String × PyVal)) (k : String) : Option PyVal :=
  match kvs with
  | [] => Option.none
  | (k₁, v) :: t => if k₁ = k then some v else lookupKV t k

/-- Is the pattern a contiguous sublist (Python `in` for strings)? -/
def isSubListB (pat : List Char) (s : List Char) : Bool :=
  match s with
  | [] => pat.isEmpty
  | _ :: t => pat.isPrefixOf s || isSubListB pat t

mutual
/-- Python `repr` of a value, as used when a container is formatted. -/
def pyRepr : PyVal → String
  | .none => "None"
  | .bool true => "True"
  | .bool false => "False"
  | .int n => toString n
  | .str s => "\x27" ++ s ++ "\x27"
  | .list xs => "[" ++ String.intercalate ", " (pyReprSeq xs) ++ "]"
  | .dict kvs => "\x7b" ++ String.intercalate ", " (pyReprKVs kvs) ++ "\x7d"

/-- `repr` of the elements of a list value. -/
def pyReprSeq : List PyVal → List String
  | [] => []
  | v :: t => pyRepr v :: pyReprSeq t

/-- `repr` of the key/value pairs of a dict value. -/
def pyReprKVs : List (String × PyVal) → List String
  | [] => []
  | (k, v) :: t => ("\x27" ++ k ++ "\x27: " ++ pyRepr v) :: pyReprKVs t
end

/-- Python `str` of a value, as used inside an f-string. -/
def pyStr (v : PyVal) : String :=
  match v with
  | .str s => s
  | _ => pyRepr v

/-- The Python exceptions the program raises or meets.  A wrapped cause
(second constructor argument of `IncorrectAPIResponse(message, error)`)
is stored already rendered to its `repr` string. -/
inductive PyErr where
  | typeError (msg : String)
  | keyError (msg : String)
  | valueError (msg : String)
  | attributeError (msg : String)
  | indexError (msg : String)
  | telegramError (msg : String)
  | requestError (msg : String)
  | incorrectAPIResponse (msg : String) (cause : Option String)
deriving DecidableEq

/-- Python `repr` of an exception: class name applied to its args. -/
def errRepr : PyErr → String
  | .typeError m => "TypeError(\x27" ++ m ++ "\x27)"
  | .keyError m => "KeyError(\x27" ++ m ++ "\x27)"
  | .valueError m => "ValueError(\x27" ++ m ++ "\x27)"
  | .attributeError m => "AttributeError(\x27" ++ m ++ "\x27)"
  | .indexError m => "IndexError(\x27" ++ m ++ "\x27)"
  | .telegramError m => "TelegramError(\x27" ++ m ++ "\x27)"
  | .requestError m => "RequestException(\x27" ++ m ++ "\x27)"
  | .incorrectAPIResponse m Option.none => "IncorrectAPIResponse(\x27" ++ m ++ "\x27)"
  | .incorrectAPIResponse m (some c) =>
      "IncorrectAPIResponse(\x27" ++ m ++ "\x27, " ++ c ++ ")"

/-- Python `str` of an exception, as interpolated into an f-string:
the message for one-arg exceptions (`KeyError` keeps its quotes), the
args tuple for the two-arg `IncorrectAPIResponse(message, error)`. -/
def errStr : PyErr → String
  | .typeError m => m
  | .keyError m => "\x27" ++ m ++ "\x27"
  | .valueError m => m
  | .attributeError m => m
  | .indexError m => m
  | .telegramError m => m
  | .requestError m => m
  | .incorrectAPIResponse m Option.none => m
  | .incorrectAPIResponse m (some c) => "(\x27" ++ m ++ "\x27, " ++ c ++ ")"

/-- Does a list value contain the string `k` (Python `==` against each
element: only a `str` element can equal a string)? -/
def listContainsStr : List PyVal → String → Bool
  | [], _ => false
  | .str s :: t, k => s = k || listContainsStr t k
  | _ :: t, k => listContainsStr t k

/-- Python `k in v` for a string key `k`: key membership for dicts,
element membership for lists, substring test for strings, and a
`TypeError` for non-iterable values. -/
def pyContains (v : PyVal) (k : String) : Except PyErr Bool :=
  match v with
  | .dict kvs => .ok (lookupKV kvs k).isSome
  | .list xs => .ok (listContainsStr xs k)
  | .str s => .ok (isSubListB k.data s.data)
  | .none => .error (.typeError "argument of type \x27NoneType\x27 is not iterable")
  | .bool _ => .error (.typeError "argument of type \x27bool\x27 is not iterable")
  | .int _ => .error (.typeError "argument of type \x27int\x27 is not iterable")

/-- Python `v[k]` for a string key `k`: dict lookup (raising `KeyError`
when absent); any other receiver is not subscriptable by a string. -/
def pySubscript (v : PyVal) (k : String) : Except PyErr PyVal :=
  match v with
  | .dict kvs =>
      match lookupKV kvs k with
      | some w => .ok w
      | Option.none => .error (.keyError k)
  | _ => .error (.typeError "value is not subscriptable by a string key")

/-- Python `v.get(k, default)`: only dicts have `.get`; missing keys
yield the default. -/
def pyGet (v : PyVal) (k : String) (dflt : PyVal) : Except PyErr PyVal :=
  match v with
  | .dict kvs =>
      match lookupKV kvs k with
      | some w => .ok w
      | Option.none => .ok dflt
  | _ => .error (.attributeError "object has no attribute \x27get\x27")

/-- Python `v.get(k)` with no default (`None` when absent). -/
def pyGetOpt (v : PyVal) (k : String) : Except PyErr PyVal :=
  pyGet v k PyVal.none

/-- Python `v[0]`: first element of a list (raising `IndexError` when
empty); other receivers raise. -/
def pyIndexZero (v : PyVal) : Except PyErr PyVal :=
  match v with
  | .list (h :: _) => .ok h
  | .list [] => .error (.indexError "list index out of range")
  | .str ⟨c :: _⟩ => .ok (.str ⟨[c]⟩)
  | .str ⟨[]⟩ => .error (.indexError "string index out of range")
  | _ => .error (.typeError "object is not subscriptable")

/-- Is the value a Python dict (`isinstance(v, dict)`)? -/
def PyVal.isDict : PyVal → Bool
  | .dict _ => true
  | _ => false

/-- Is the value a Python list (`isinstance(v, list)`)? -/
def PyVal.isList : PyVal → Bool
  | .list _ => true
  | _ => false

/-- The fixed verdict table `HOMEWORK_VERDICTS` of `homework.py`. -/
def HOMEWORK_VERDICTS : List (String × String) :=
  [("approved", "Работа проверена: ревьюеру всё понравилось. Ура!"),
   ("reviewing", "Работа взята на проверку ревьюером."),
   ("rejected", "Работа проверена: у ревьюера есть замечания.")]

/-- First-match lookup in a string-to-string table. -/
def lookupStr (tbl : List (String × String)) (k : String) : Option String :=
  match tbl with
  | [] => Option.none
  | (k₁, v) :: t => if k₁ = k then some v else lookupStr t k

/-- Python `HOMEWORK_VERDICTS.get(key)` where `key` is an arbitrary value
(`homework.get("status")` may be `None` or any JSON value): a string key
is looked up, other hashable keys miss, unhashable keys raise. -/
def verdictsGet (key : PyVal) : Except PyErr (Option String) :=
  match key with
  | .str s => .ok (lookupStr HOMEWORK_VERDICTS s)
  | .none => .ok Option.none
  | .bool _ => .ok Option.none
  | .int _ => .ok Option.none
  | .list _ => .error (.typeError "unhashable type: \x27list\x27")
  | .dict _ => .error (.typeError "unhashable type: \x27dict\x27")

/-- The three environment variables read at startup. -/
structure Env where
  PRACTICUM_TOKEN : Option String
  TELEGRAM_TOKEN : Option String
  TELEGRAM_CHAT_ID : Option String

/-- Python truthiness of an `os.getenv` result: `None` and the empty
string are falsy. -/
def envTruthy : Option String → Bool
  | Option.none => false
  | some s => s ≠ ""

/-- `check_tokens`: `all([PRACTICUM_TOKEN, TELEGRAM_TOKEN, TELEGRAM_CHAT_ID])`. -/
def check_tokens (env : Env) : Bool :=
  envTruthy env.PRACTICUM_TOKEN && envTruthy env.TELEGRAM_TOKEN &&
    envTruthy env.TELEGRAM_CHAT_ID

/-- One behaviour of the Telegram client for a single
`bot.send_message` call: deliver, or raise some exception. -/
inductive ClientOutcome where
  | ok
  | raise (e : PyErr)

/-- `send_message(bot, message)`: attempts delivery; a `TelegramError`
is caught and logged (result `false`), success is logged (result
`true`); any other exception propagates to the caller. -/
def send_message (outcome : ClientOutcome) (message : String) : Except PyErr Bool :=
  match outcome with
  | .ok => .ok true
  | .raise (.telegramError m) =>
      let _ := message
      let _ := m
      .ok false
  | .raise e => .error e

/-- An HTTP response as seen through the `requests` black box. -/
structure HttpResponse where
  status_code : Nat
  reason : String
  text : String
  json : Except PyErr PyVal

/-- One behaviour of `requests.get`: the request cannot be completed, or
a response arrives. -/
inductive HttpOutcome where
  | failure (e : PyErr)
  | success (resp : HttpResponse)

/-- The log template assigned to `message` before the request (a plain
string in the source, not an f-string). -/
def beginRequestMessage : String :=
  "Begin request to API. Request:{url}, {headers}, {params}."

/-- The message of the `IncorrectAPIResponse` raised on a non-200
status: four adjacent f-strings. -/
def non200Message (resp : HttpResponse) : String :=
  "API response does not return 200." ++
  "Response code: " ++ toString resp.status_code ++ "." ++
  "Reason: " ++ resp.reason ++ "." ++
  "Text: " ++ resp.text ++ "."

/-- What a call to `get_api_answer` did: the `from_date` actually sent
and the returned value or raised exception. -/
structure FetchResult where
  from_date : PyVal
  result : Except PyErr PyVal

/-- `get_api_answer(load)`.  `timeline = load or time.time_ns()` picks
the cursor when truthy, else the current time in nanoseconds.  Any
exception inside the `try` — including the explicitly raised non-200
`IncorrectAPIResponse` — is caught by `except Exception` and re-raised
as `IncorrectAPIResponse(message, error)` with `message` still the
pre-request template. -/
def get_api_answer (nowNs : Int) (load : PyVal) (http : PyVal → HttpOutcome) :
    FetchResult :=
  let timeline := if pyTruthy load then load else PyVal.int nowNs
  let result : Except PyErr PyVal :=
    match http timeline with
    | .failure e =>
        .error (.incorrectAPIResponse beginRequestMessage (some (errRepr e)))
    | .success resp =>
        if resp.status_code ≠ 200 then
          .error (.incorrectAPIResponse beginRequestMessage
            (some (errRepr (.incorrectAPIResponse (non200Message resp) Option.none))))
        else
          match resp.json with
          | .error e =>
              .error (.incorrectAPIResponse beginRequestMessage (some (errRepr e)))
          | .ok v => .ok v
  ⟨timeline, result⟩

/-- `check_response(response)`, with the source's check order: key
`homeworks` via `in` first, then `isinstance(response, dict)`, then
`isinstance(response["homeworks"], list)`, then key `current_date`. -/
def check_response (response : PyVal) : Except PyErr PyVal :=
  match pyContains response "homeworks" with
  | .error e => .error e
  | .ok hc =>
    if !hc then .error (.typeError "Response does not contain \"homeworks\" key")
    else if !response.isDict then .error (.typeError "Response is not a dictionary")
    else match pySubscript response "homeworks" with
      | .error e => .error e
      | .ok hw =>
        if !hw.isList then .error (.typeError "\"homeworks\" value is not a list")
        else match pyContains response "current_date" with
          | .error e => .error e
          | .ok cc =>
            if !cc then
              .error (.typeError "Response does not contain \"current_date\" key")
            else .ok hw

/-- Modelled from the spec (§4.2 ResponseValidator): the same four
schema checks, but evaluated in the order the spec states — not a
mapping first, then `homeworks` absent, then `homeworks` not a
sequence, then `current_date` absent.  Used only to compare the spec's
claimed check order with `check_response`. -/
def validateSpecOrder (response : PyVal) : Except PyErr PyVal :=
  match response with
  | .dict kvs =>
    match lookupKV kvs "homeworks" with
    | Option.none => .error (.typeError "Response does not contain \"homeworks\" key")
    | some hw =>
      if !hw.isList then .error (.typeError "\"homeworks\" value is not a list")
      else if (lookupKV kvs "current_date").isNone then
        .error (.typeError "Response does not contain \"current_date\" key")
      else .ok hw
  | _ => .error (.typeError "Response is not a dictionary")

/-- `parse_status(homework)`: `homework_name` membership is checked
first; then the verdict is looked up from `homework.get("status")`;
`homework["homework_name"]` is read only after both checks pass. -/
def parse_status (homework : PyVal) : Except PyErr String :=
  match pyContains homework "homework_name" with
  | .error e => .error e
  | .ok hc =>
    if !hc then .error (.keyError "No key for homework_name in API response")
    else match pyGetOpt homework "status" with
      | .error e => .error e
      | .ok statusVal =>
        match verdictsGet statusVal with
        | .error e => .error e
        | .ok Option.none => .error (.valueError "Invalid status value in API response")
        | .ok (some verdict) =>
          match pySubscript homework "homework_name" with
          | .error e => .error e
          | .ok nameVal =>
            .ok ("Изменился статус проверки работы \"" ++ pyStr nameVal ++
                 "\". " ++ verdict)

/-- The loop-owned mutable state of `main`: the poll cursor `load` and
the deduplication string `prev_msg`. -/
structure LoopState where
  load : PyVal
  prev_msg : String

/-- The external behaviour one loop iteration meets: the clock readings,
the HTTP black box (a function of the issued `from_date`), and the
Telegram client behaviour for each of the at most two
`send_message` calls of the iteration. -/
structure IterInput where
  nowNs : Int
  nowSec : Int
  http : PyVal → HttpOutcome
  sendOutcome1 : ClientOutcome
  sendOutcome2 : ClientOutcome

/-- What one iteration of the `while True` body did. -/
structure IterResult where
  state : LoopState
  sends : List String
  slept : Bool
  crashed : Option PyErr

/-- The diagnostic text built in the loop's `except` clause:
`f"Сбой в работе программы: {error}"`. -/
def diagMessage (e : PyErr) : String :=
  "Сбой в работе программы: " ++ errStr e

/-- The message choice of the success path:
`parse_status(homeworks[0])` when `homeworks` is truthy, else the fixed
`"No new status"`. -/
def loopMessage (homeworks : PyVal) : Except PyErr String :=
  if pyTruthy homeworks then
    match pyIndexZero homeworks with
    | .error e => .error e
    | .ok h => parse_status h
  else .ok "No new status"

/-- The `try` body of the loop up to the message computation: fetch,
cursor update (`load = response.get("current_date", int(time.time()))`),
validation, translation.  Returns the cursor as left behind (the update
happens before validation, so it survives later failures) and either the
message or the first exception. -/
def iterPipeline (st : LoopState) (inp : IterInput) : PyVal × Except PyErr String :=
  match (get_api_answer inp.nowNs st.load inp.http).result with
  | .error e => (st.load, .error e)
  | .ok response =>
    match pyGet response "current_date" (PyVal.int inp.nowSec) with
    | .error e => (st.load, .error e)
    | .ok load₂ =>
      match check_response response with
      | .error e => (load₂, .error e)
      | .ok homeworks =>
        match loopMessage homeworks with
        | .error e => (load₂, .error e)
        | .ok m => (load₂, .ok m)

/-- The message an iteration deduplicates against `prev_msg`: the
success message, or the diagnostic for the first exception. -/
def iterMessage (st : LoopState) (inp : IterInput) : String :=
  match (iterPipeline st inp).2 with
  | .ok m => m
  | .error e => diagMessage e

/-- The `except Exception` clause: build the diagnostic, send it only
when it differs from `prev_msg`, update `prev_msg` only when
`send_message` returned normally.  `sends₀` are sends already attempted
in the `try` body.  The `finally: time.sleep(RETRY_PERIOD)` always runs;
an exception escaping the `except` clause itself ends `main`. -/
def handleExcept (load : PyVal) (prev : String) (sends₀ : List String)
    (e : PyErr) (outcome : ClientOutcome) : IterResult :=
  if diagMessage e ≠ prev then
    match send_message outcome (diagMessage e) with
    | .ok _ => ⟨⟨load, diagMessage e⟩, sends₀ ++ [diagMessage e], true, Option.none⟩
    | .error e₂ => ⟨⟨load, prev⟩, sends₀ ++ [diagMessage e], true, some e₂⟩
  else ⟨⟨load, prev⟩, sends₀, true, Option.none⟩

/-- One iteration of the `while True` body of `main`. -/
def runIter (st : LoopState) (inp : IterInput) : IterResult :=
  match iterPipeline st inp with
  | (load₂, .error e) => handleExcept load₂ st.prev_msg [] e inp.sendOutcome2
  | (load₂, .ok message) =>
    if message ≠ st.prev_msg then
      match send_message inp.sendOutcome1 message with
      | .ok _ => ⟨⟨load₂, message⟩, [message], true, Option.none⟩
      | .error e => handleExcept load₂ st.prev_msg [message] e inp.sendOutcome2
    else ⟨⟨load₂, st.prev_msg⟩, [], true, Option.none⟩

/-- What the startup prologue of `main` did: `sys.exit(message)` (a
string argument makes the process exit status 1), a crash of the
startup send, or entry into the loop with the initial state. -/
inductive StartupOutcome where
  | exited (status : Nat) (msg : String)
  | crashed (e : PyErr)
  | running (st : LoopState) (sends : List String)

/-- The sends attempted during startup (none on the exit path: the
token check precedes bot construction and the startup notification, and
the first HTTP request only happens inside the loop). -/
def startupSends : StartupOutcome → List String
  | .exited _ _ => []
  | .crashed _ => ["Bot starts operation"]
  | .running _ sends => sends

/-- The startup prologue of `main`: token check, fatal `sys.exit` on
failure, otherwise the fixed startup notification, cursor
`load = int(time.time())` and `prev_msg = ""`. -/
def mainStartup (env : Env) (nowSec : Int) (outcome : ClientOutcome) : StartupOutcome :=
  if !check_tokens env then .exited 1 "No token. Bot operation stopped!"
  else
    match send_message outcome "Bot starts operation" with
    | .error e => .crashed e
    | .ok _ => .running ⟨PyVal.int nowSec, ""⟩ ["Bot starts operation"]

/-- A Telegram-client behaviour under which `send_message` returns
normally: successful delivery, or a failure of the client's own error
type `TelegramError` (the only type the `except` clause catches). -/
def clientBenign : ClientOutcome → Bool
  | .ok => true
  | .raise (.telegramError _) => true
  | .raise _ => false

/-- `sub` occurs contiguously inside `s`. -/
def strHas (s sub : String) : Prop :=
  ∃ a b : List Char, s.data = a ++ (sub.data ++ b)

/-- A concrete valid API response: no homeworks, `current_date = 1000`. -/
def sampleResp : HttpResponse :=
  ⟨200, "OK", "",
   .ok (PyVal.dict [("homeworks", PyVal.list []), ("current_date", PyVal.int 1000)])⟩

/-- A concrete iteration input delivering `sampleResp` with a healthy
Telegram client. -/
def sampleInput : IterInput :=
  ⟨0, 500, fun _ => .success sampleResp, .ok, .ok⟩

/-- A concrete iteration input whose HTTP request cannot complete. -/
def failInput : IterInput :=
  ⟨0, 500, fun _ => .failure (.requestError "timeout"), .ok, .ok⟩

/-- A concrete healthy response that lacks `current_date`. -/
def respNoCd : HttpResponse :=
  ⟨200, "OK", "", .ok (PyVal.dict [("homeworks", PyVal.list [])])⟩

/-- A concrete iteration input delivering `respNoCd` with a healthy
Telegram client. -/
def noCdInput : IterInput :=
  ⟨0, 500, fun _ => .success respNoCd, .ok, .ok⟩

/-- A concrete 503 response (scenario D). -/
def resp503 : HttpResponse :=
  ⟨503, "Service Unavailable", "busy", .ok PyVal.none⟩


/-- Under a benign client behaviour, `send_message` returns normally. -/
theorem send_message_benign (o : ClientOutcome) (m : String)
    (h : clientBenign o = true) : ∃ b : Bool, send_message o m = .ok b := by
  cases o with
  | ok => exact ⟨true, rfl⟩
  | raise e =>
    cases e <;> simp [clientBenign] at h
    exact ⟨false, rfl⟩

/-- `handleExcept` never touches the cursor. -/
theorem handleExcept_load (load : PyVal) (prev : String) (s₀ : List String)
    (e : PyErr) (o : ClientOutcome) :
    (handleExcept load prev s₀ e o).state.load = load := by
  unfold handleExcept
  split
  · cases hsm : send_message o (diagMessage e) with
    | ok b => simp [hsm]
    | error e₂ => simp [hsm]
  · rfl

/-- The cursor left behind by an iteration is the one computed by the
pipeline (the `except` path keeps it). -/
theorem runIter_load (st : LoopState) (inp : IterInput) :
    (runIter st inp).state.load = (iterPipeline st inp).1 := by
  unfold runIter
  rcases hp : iterPipeline st inp with ⟨l, r⟩
  cases r with
  | error e => simpa using handleExcept_load l st.prev_msg [] e inp.sendOutcome2
  | ok m =>
    by_cases hc : m = st.prev_msg
    · simp [hc]
    · cases hsm : send_message inp.sendOutcome1 m with
      | ok b => simp [hc, hsm]
      | error e => simpa [hc, hsm] using
          handleExcept_load l st.prev_msg [m] e inp.sendOutcome2

/-- `handleExcept` under a benign client: the diagnostic is sent iff it
differs from `prev`, `prev_msg` then tracks it, and nothing crashes. -/
theorem handleExcept_benign (load : PyVal) (prev : String) (s₀ : List String)
    (e : PyErr) (o : ClientOutcome) (h : clientBenign o = true) :
    handleExcept load prev s₀ e o =
      if diagMessage e ≠ prev then
        ⟨⟨load, diagMessage e⟩, s₀ ++ [diagMessage e], true, Option.none⟩
      else ⟨⟨load, prev⟩, s₀, true, Option.none⟩ := by
  obtain ⟨b, hb⟩ := send_message_benign o (diagMessage e) h
  by_cases hc : diagMessage e = prev
  · simp [handleExcept, hc, hb]
  · simp [handleExcept, hc, hb]

/-- One iteration under a benign client: the new cursor is the
pipeline's, `prev_msg` becomes the iteration's message, the message is
sent iff it differs from the previous one, the iteration sleeps and
never crashes. -/
theorem runIter_benign (st : LoopState) (inp : IterInput)
    (h1 : clientBenign inp.sendOutcome1 = true)
    (h2 : clientBenign inp.sendOutcome2 = true) :
    runIter st inp =
      ⟨⟨(iterPipeline st inp).1, iterMessage st inp⟩,
       if iterMessage st inp ≠ st.prev_msg then [iterMessage st inp] else [],
       true, Option.none⟩ := by
  unfold runIter iterMessage
  rcases hp : iterPipeline st inp with ⟨l, r⟩
  cases r with
  | error e =>
    have hb := handleExcept_benign l st.prev_msg [] e inp.sendOutcome2 h2
    by_cases hc : diagMessage e = st.prev_msg
    · simp [hb, hc]
    · simp [hb, hc]
  | ok m =>
    by_cases hc : m = st.prev_msg
    · simp [hc]
    · obtain ⟨b, hb⟩ := send_message_benign inp.sendOutcome1 m h1
      simp [hc, hb]

/-! ### Claims -/

/-- Claim C1, counterexample: on a non-mapping response (the empty
list), the order stated by the spec would report "Response is not a
dictionary" first, but `check_response` raises the missing-`homeworks`
error: the source evaluates the `homeworks` membership check before the
mapping check. -/
theorem c1_check_order_counterexample :
    check_response (PyVal.list []) =
      .error (.typeError "Response does not contain \"homeworks\" key") ∧
    validateSpecOrder (PyVal.list []) =
      .error (.typeError "Response is not a dictionary") ∧
    PyErr.typeError "Response does not contain \"homeworks\" key" ≠
      PyErr.typeError "Response is not a dictionary" :=
  ⟨rfl, rfl, by decide⟩

/-- Claim C1, amended: `check_response` evaluates its schema checks in
the source's fixed order — key `homeworks` absent first, then `response`
not a mapping, then `homeworks` not a sequence, then key `current_date`
absent — so the first violated condition in that order determines which
`TypeError` is raised; when all pass, the `homeworks` value is
returned. -/
theorem c1_check_order_amended :
    (∀ kvs, lookupKV kvs "homeworks" = Option.none →
      check_response (PyVal.dict kvs) =
        .error (.typeError "Response does not contain \"homeworks\" key")) ∧
    (∀ xs, listContainsStr xs "homeworks" = true →
      check_response (PyVal.list xs) =
        .error (.typeError "Response is not a dictionary")) ∧
    (∀ kvs hw, lookupKV kvs "homeworks" = some hw → hw.isList = false →
      check_response (PyVal.dict kvs) =
        .error (.typeError "\"homeworks\" value is not a list")) ∧
    (∀ kvs hw, lookupKV kvs "homeworks" = some hw → hw.isList = true →
      lookupKV kvs "current_date" = Option.none →
      check_response (PyVal.dict kvs) =
        .error (.typeError "Response does not contain \"current_date\" key")) ∧
    (∀ kvs hw cd, lookupKV kvs "homeworks" = some hw → hw.isList = true →
      lookupKV kvs "current_date" = some cd →
      check_response (PyVal.dict kvs) = .ok hw) := by
  refine ⟨?_, ?_, ?_, ?_, ?_⟩
  · intro kvs h
    simp [check_response, pyContains, h]
  · intro xs h
    simp [check_response, pyContains, h, PyVal.isDict]
  · intro kvs hw h hl
    simp [check_response, pyContains, h, PyVal.isDict, pySubscript, hl]
  · intro kvs hw h hl hcd
    simp [check_response, pyContains, h, PyVal.isDict, pySubscript, hl, hcd]
  · intro kvs hw cd h hl hcd
    simp [check_response, pyContains, h, PyVal.isDict, pySubscript, hl, hcd]

/-- Claim C1, witness: one concrete response per branch of the order. -/
theorem c1_check_order_witness :
    check_response (PyVal.dict [("current_date", PyVal.int 1000)]) =
      .error (.typeError "Response does not contain \"homeworks\" key") ∧
    check_response (PyVal.list [PyVal.str "homeworks"]) =
      .error (.typeError "Response is not a dictionary") ∧
    check_response (PyVal.dict [("homeworks", PyVal.int 5), ("current_date", PyVal.int 1)]) =
      .error (.typeError "\"homeworks\" value is not a list") ∧
    check_response (PyVal.dict [("homeworks", PyVal.list [])]) =
      .error (.typeError "Response does not contain \"current_date\" key") ∧
    check_response (PyVal.dict [("homeworks", PyVal.list []), ("current_date", PyVal.int 1000)]) =
      .ok (PyVal.list []) :=
  ⟨c1_check_order_amended.1 _ rfl,
   c1_check_order_amended.2.1 _ rfl,
   c1_check_order_amended.2.2.1 _ _ rfl rfl,
   c1_check_order_amended.2.2.2.1 _ _ rfl rfl rfl,
   c1_check_order_amended.2.2.2.2 _ _ _ rfl rfl rfl⟩

/-- Claim C2 (confirmed): `parse_status` checks `homework_name`
membership first (a `KeyError` regardless of the status field); with
`homework_name` present and `status` one of the three table entries it
returns exactly
`Изменился статус проверки работы "{name}". {verdict}`; with `status`
missing or outside the table it raises a `ValueError`.  The three table
entries are fixed. -/
theorem c2_parse_status_correct :
    lookupStr HOMEWORK_VERDICTS "approved" =
      some "Работа проверена: ревьюеру всё понравилось. Ура!" ∧
    lookupStr HOMEWORK_VERDICTS "reviewing" =
      some "Работа взята на проверку ревьюером." ∧
    lookupStr HOMEWORK_VERDICTS "rejected" =
      some "Работа проверена: у ревьюера есть замечания." ∧
    (∀ kvs, lookupKV kvs "homework_name" = Option.none →
      parse_status (PyVal.dict kvs) =
        .error (.keyError "No key for homework_name in API response")) ∧
    (∀ kvs nameVal s v, lookupKV kvs "homework_name" = some nameVal →
      lookupKV kvs "status" = some (PyVal.str s) →
      lookupStr HOMEWORK_VERDICTS s = some v →
      parse_status (PyVal.dict kvs) =
        .ok ("Изменился статус проверки работы \"" ++ pyStr nameVal ++ "\". " ++ v)) ∧
    (∀ kvs nameVal, lookupKV kvs "homework_name" = some nameVal →
      lookupKV kvs "status" = Option.none →
      parse_status (PyVal.dict kvs) =
        .error (.valueError "Invalid status value in API response")) ∧
    (∀ kvs nameVal s, lookupKV kvs "homework_name" = some nameVal →
      lookupKV kvs "status" = some (PyVal.str s) →
      lookupStr HOMEWORK_VERDICTS s = Option.none →
      parse_status (PyVal.dict kvs) =
        .error (.valueError "Invalid status value in API response")) := by
  refine ⟨rfl, rfl, rfl, ?_, ?_, ?_, ?_⟩
  · intro kvs h
    simp [parse_status, pyContains, h]
  · intro kvs nameVal s v h1 h2 h3
    simp [parse_status, pyContains, h1, pyGetOpt, pyGet, h2, verdictsGet, h3, pySubscript]
  · intro kvs nameVal h1 h2
    simp [parse_status, pyContains, h1, pyGetOpt, pyGet, h2, verdictsGet]
  · intro kvs nameVal s h1 h2 h3
    simp [parse_status, pyContains, h1, pyGetOpt, pyGet, h2, verdictsGet, h3]

/-- Claim C2, witness: one concrete record per branch, including
scenario A's record `{"homework_name": "hw1", "status": "approved"}`. -/
theorem c2_parse_status_witness :
    parse_status (PyVal.dict [("status", PyVal.str "approved")]) =
      .error (.keyError "No key for homework_name in API response") ∧
    parse_status (PyVal.dict
        [("homework_name", PyVal.str "hw1"), ("status", PyVal.str "approved")]) =
      .ok ("Изменился статус проверки работы \"" ++ pyStr (PyVal.str "hw1") ++
           "\". " ++ "Работа проверена: ревьюеру всё понравилось. Ура!") ∧
    parse_status (PyVal.dict [("homework_name", PyVal.str "hw1")]) =
      .error (.valueError "Invalid status value in API response") ∧
    parse_status (PyVal.dict
        [("homework_name", PyVal.str "hw1"), ("status", PyVal.str "unknown")]) =
      .error (.valueError "Invalid status value in API response") :=
  ⟨c2_parse_status_correct.2.2.2.1 _ rfl,
   c2_parse_status_correct.2.2.2.2.1 _ _ _ _ rfl rfl rfl,
   c2_parse_status_correct.2.2.2.2.2.1 _ _ rfl rfl,
   c2_parse_status_correct.2.2.2.2.2.2 _ _ _ rfl rfl rfl⟩

/-- Claim C3, counterexample: three consecutive iterations all produce
the message `No new status` (same healthy response each time, started
from the loop's initial `prev_msg = ""`).  The pair formed by the second
and third iterations produces the identical message yet sends zero
notifications — not exactly one — because `prev_msg` already equals the
message when the pair starts. -/
theorem c3_dedup_counterexample :
    (runIter ⟨PyVal.int 1, ""⟩ sampleInput).sends = ["No new status"] ∧
    (runIter (runIter ⟨PyVal.int 1, ""⟩ sampleInput).state sampleInput).sends = [] ∧
    (runIter (runIter (runIter ⟨PyVal.int 1, ""⟩ sampleInput).state sampleInput).state
        sampleInput).sends = [] ∧
    iterMessage (runIter ⟨PyVal.int 1, ""⟩ sampleInput).state sampleInput =
      iterMessage (runIter (runIter ⟨PyVal.int 1, ""⟩ sampleInput).state sampleInput).state
        sampleInput :=
  ⟨rfl, rfl, rfl, rfl⟩

/-- Claim C3, amended: under a client that raises at most its own
`TelegramError`, after every iteration `prev_msg` equals that
iteration's message (the text of the last attempted loop send, when one
occurred); a pair of consecutive iterations producing the identical
message sends at most one notification, and exactly one exactly when
the message differs from `prev_msg` entering the pair; and two
consecutive attempted sends are never equal.  (After startup `prev_msg`
is `""` and does not reflect the startup notification, but no loop
message ever equals a previously unsent `prev_msg` twice.) -/
theorem c3_dedup_amended (s : LoopState) (inp₁ inp₂ : IterInput)
    (hb1 : clientBenign inp₁.sendOutcome1 = true)
    (hb2 : clientBenign inp₁.sendOutcome2 = true)
    (hb3 : clientBenign inp₂.sendOutcome1 = true)
    (hb4 : clientBenign inp₂.sendOutcome2 = true) :
    (runIter s inp₁).state.prev_msg = iterMessage s inp₁ ∧
    (runIter (runIter s inp₁).state inp₂).state.prev_msg =
      iterMessage (runIter s inp₁).state inp₂ ∧
    (iterMessage s inp₁ = iterMessage (runIter s inp₁).state inp₂ →
      ((runIter s inp₁).sends ++ (runIter (runIter s inp₁).state inp₂).sends).length ≤ 1 ∧
      (iterMessage s inp₁ ≠ s.prev_msg →
        (runIter s inp₁).sends ++ (runIter (runIter s inp₁).state inp₂).sends =
          [iterMessage s inp₁])) ∧
    (∀ m₁ m₂, (runIter s inp₁).sends = [m₁] →
      (runIter (runIter s inp₁).state inp₂).sends = [m₂] → m₁ ≠ m₂) := by
  have H1 := runIter_benign s inp₁ hb1 hb2
  have H2 := runIter_benign (runIter s inp₁).state inp₂ hb3 hb4
  have hp1 : (runIter s inp₁).state.prev_msg = iterMessage s inp₁ := by rw [H1]
  have hs1 : (runIter s inp₁).sends =
      if iterMessage s inp₁ ≠ s.prev_msg then [iterMessage s inp₁] else [] := by rw [H1]
  have hp2 : (runIter (runIter s inp₁).state inp₂).state.prev_msg =
      iterMessage (runIter s inp₁).state inp₂ := by rw [H2]
  have hs2 : (runIter (runIter s inp₁).state inp₂).sends =
      if iterMessage (runIter s inp₁).state inp₂ ≠ (runIter s inp₁).state.prev_msg
      then [iterMessage (runIter s inp₁).state inp₂] else [] := by rw [H2]
  rw [hp1] at hs2
  refine ⟨hp1, hp2, ?_, ?_⟩
  · intro hm
    rw [← hm] at hs2
    simp only [ne_eq, not_true_eq_false, if_false, ite_self] at hs2
    have hs2' : (runIter (runIter s inp₁).state inp₂).sends = [] := by
      simpa using hs2
    constructor
    · rw [hs1, hs2']
      by_cases hc : iterMessage s inp₁ = s.prev_msg
      · simp [hc]
      · simp [hc]
    · intro hne
      rw [hs1, hs2']
      simp [hne]
  · intro m₁ m₂ ha hb
    rw [hs1] at ha
    rw [hs2] at hb
    by_cases hc : iterMessage s inp₁ = s.prev_msg
    · simp [hc] at ha
    · simp only [ne_eq, hc, not_false_eq_true, if_true, ite_not] at ha
      have ha' : iterMessage s inp₁ = m₁ := by
        by_cases h9 : iterMessage s inp₁ = s.prev_msg
        · exact absurd h9 hc
        · simpa [h9] using ha
      by_cases hd : iterMessage (runIter s inp₁).state inp₂ = iterMessage s inp₁
      · simp [hd] at hb
      · have hb' : iterMessage (runIter s inp₁).state inp₂ = m₂ := by
          simpa [hd] using hb
        intro hcontra
        exact hd (by rw [hb', ← hcontra, ← ha'])

/-- Claim C3, witness: the amended statement at the concrete healthy
input, starting from the loop's initial state. -/
theorem c3_dedup_witness :
    (runIter ⟨PyVal.int 1, ""⟩ sampleInput).state.prev_msg =
      iterMessage ⟨PyVal.int 1, ""⟩ sampleInput ∧
    (runIter (runIter ⟨PyVal.int 1, ""⟩ sampleInput).state sampleInput).state.prev_msg =
      iterMessage (runIter ⟨PyVal.int 1, ""⟩ sampleInput).state sampleInput ∧
    (iterMessage ⟨PyVal.int 1, ""⟩ sampleInput =
        iterMessage (runIter ⟨PyVal.int 1, ""⟩ sampleInput).state sampleInput →
      ((runIter ⟨PyVal.int 1, ""⟩ sampleInput).sends ++
        (runIter (runIter ⟨PyVal.int 1, ""⟩ sampleInput).state sampleInput).sends).length ≤ 1 ∧
      (iterMessage ⟨PyVal.int 1, ""⟩ sampleInput ≠ (⟨PyVal.int 1, ""⟩ : LoopState).prev_msg →
        (runIter ⟨PyVal.int 1, ""⟩ sampleInput).sends ++
          (runIter (runIter ⟨PyVal.int 1, ""⟩ sampleInput).state sampleInput).sends =
          [iterMessage ⟨PyVal.int 1, ""⟩ sampleInput])) ∧
    (∀ m₁ m₂, (runIter ⟨PyVal.int 1, ""⟩ sampleInput).sends = [m₁] →
      (runIter (runIter ⟨PyVal.int 1, ""⟩ sampleInput).state sampleInput).sends = [m₂] →
      m₁ ≠ m₂) :=
  c3_dedup_amended ⟨PyVal.int 1, ""⟩ sampleInput sampleInput rfl rfl rfl rfl

/-- Claim C4 (confirmed): after a successful fetch of a mapping
response, the loop sets the cursor to the response’s `current_date`
when the key is present — the update happens right after the fetch,
before validation, so it survives later failures — and falls back to
the current time (`int(time.time())`) when the key is absent; when
`current_date = T` is present, the next fetch issues `from_date ≥ T`:
exactly `T` when `T ≠ 0`, and the current time in nanoseconds — which
is `≥ 0 ≥ T` — when `T = 0`. -/
theorem c4_cursor_update (st : LoopState) (inp : IterInput)
    (kvs : List (String × PyVal))
    (hresp : (get_api_answer inp.nowNs st.load inp.http).result = .ok (PyVal.dict kvs)) :
    (∀ T : Int, lookupKV kvs "current_date" = some (PyVal.int T) →
      (runIter st inp).state.load = PyVal.int T ∧
      (∀ (nowNs₂ : Int) (http₂ : PyVal → HttpOutcome), 0 ≤ nowNs₂ →
        ∃ d : Int, (get_api_answer nowNs₂ ((runIter st inp).state.load) http₂).from_date =
          PyVal.int d ∧ T ≤ d)) ∧
    (lookupKV kvs "current_date" = Option.none →
      (runIter st inp).state.load = PyVal.int inp.nowSec) := by
  have hload : ∀ v : PyVal,
      pyGet (PyVal.dict kvs) "current_date" (PyVal.int inp.nowSec) = .ok v →
      (runIter st inp).state.load = v := by
    intro v hv
    rw [runIter_load]
    unfold iterPipeline
    simp only [hresp]
    simp only [hv]
    rcases hcr : check_response (PyVal.dict kvs) with e | hw
    · simp [hcr]
    · rcases hlm : loopMessage hw with e | m <;> simp [hcr, hlm]
  constructor
  · intro T hcd
    have h1 : (runIter st inp).state.load = PyVal.int T :=
      hload _ (by simp [pyGet, hcd])
    refine ⟨h1, ?_⟩
    intro nowNs₂ http₂ hpos
    rw [h1]
    by_cases hT : T = 0
    · refine ⟨nowNs₂, ?_, ?_⟩
      · simp [get_api_answer, pyTruthy, hT]
      · omega
    · refine ⟨T, ?_, le_refl T⟩
      simp [get_api_answer, pyTruthy, hT]
  · intro hcd
    exact hload _ (by simp [pyGet, hcd])

/-- Claim C4, witness: with `sampleInput` (response carries
`current_date = 1000`) the cursor becomes `1000` and a following fetch
issues `from_date = 1000 ≥ 1000`; with `noCdInput` (no `current_date`)
the cursor falls back to the clock reading `500`. -/
theorem c4_cursor_update_witness :
    (runIter ⟨PyVal.int 1, ""⟩ sampleInput).state.load = PyVal.int 1000 ∧
    (∃ d : Int, (get_api_answer 7 ((runIter ⟨PyVal.int 1, ""⟩ sampleInput).state.load)
        (fun _ => HttpOutcome.success sampleResp)).from_date = PyVal.int d ∧
      (1000 : Int) ≤ d) ∧
    (runIter ⟨PyVal.int 1, ""⟩ noCdInput).state.load = PyVal.int 500 :=
  ⟨((c4_cursor_update ⟨PyVal.int 1, ""⟩ sampleInput
      [("homeworks", PyVal.list []), ("current_date", PyVal.int 1000)] rfl).1 1000 rfl).1,
   ((c4_cursor_update ⟨PyVal.int 1, ""⟩ sampleInput
      [("homeworks", PyVal.list []), ("current_date", PyVal.int 1000)] rfl).1 1000 rfl).2 7
     (fun _ => HttpOutcome.success sampleResp) (by norm_num),
   (c4_cursor_update ⟨PyVal.int 1, ""⟩ noCdInput
      [("homeworks", PyVal.list [])] rfl).2 rfl⟩

/-- Claim C5 (confirmed): on any HTTP response with status ≠ 200,
`get_api_answer` raises an `IncorrectAPIResponse` (the explicit non-200
raise, itself re-wrapped by the function's own `except Exception`
clause) whose rendered text contains the status code, the reason phrase
and the raw response body; on any request that cannot be completed it
raises an `IncorrectAPIResponse` wrapping the underlying cause. -/
theorem c5_get_api_answer_errors (nowNs : Int) (load : PyVal)
    (http : PyVal → HttpOutcome) :
    (∀ resp, http (if pyTruthy load then load else PyVal.int nowNs) = .success resp →
      resp.status_code ≠ 200 →
      (get_api_answer nowNs load http).result =
        .error (.incorrectAPIResponse beginRequestMessage
          (some (errRepr (.incorrectAPIResponse (non200Message resp) Option.none)))) ∧
      strHas (errStr (.incorrectAPIResponse beginRequestMessage
          (some (errRepr (.incorrectAPIResponse (non200Message resp) Option.none)))))
        (toString resp.status_code) ∧
      strHas (errStr (.incorrectAPIResponse beginRequestMessage
          (some (errRepr (.incorrectAPIResponse (non200Message resp) Option.none)))))
        resp.reason ∧
      strHas (errStr (.incorrectAPIResponse beginRequestMessage
          (some (errRepr (.incorrectAPIResponse (non200Message resp) Option.none)))))
        resp.text) ∧
    (∀ e, http (if pyTruthy load then load else PyVal.int nowNs) = .failure e →
      (get_api_answer nowNs load http).result =
        .error (.incorrectAPIResponse beginRequestMessage (some (errRepr e))) ∧
      strHas (errStr (.incorrectAPIResponse beginRequestMessage (some (errRepr e))))
        (errRepr e)) := by
  constructor
  · intro resp hhttp hstatus
    refine ⟨?_, ?_, ?_, ?_⟩
    · simp [get_api_answer, hhttp, hstatus]
    · refine ⟨("(\x27" ++ beginRequestMessage ++ "\x27, " ++ "IncorrectAPIResponse(\x27" ++
        "API response does not return 200." ++ "Response code: ").data,
        ("." ++ "Reason: " ++ resp.reason ++ "." ++ "Text: " ++ resp.text ++ "." ++
        "\x27)" ++ ")").data, ?_⟩
      simp [errStr, errRepr, non200Message, String.data_append, List.append_assoc]
    · refine ⟨("(\x27" ++ beginRequestMessage ++ "\x27, " ++ "IncorrectAPIResponse(\x27" ++
        "API response does not return 200." ++ "Response code: " ++
        toString resp.status_code ++ "." ++ "Reason: ").data,
        ("." ++ "Text: " ++ resp.text ++ "." ++ "\x27)" ++ ")").data, ?_⟩
      simp [errStr, errRepr, non200Message, String.data_append, List.append_assoc]
    · refine ⟨("(\x27" ++ beginRequestMessage ++ "\x27, " ++ "IncorrectAPIResponse(\x27" ++
        "API response does not return 200." ++ "Response code: " ++
        toString resp.status_code ++ "." ++ "Reason: " ++ resp.reason ++ "." ++
        "Text: ").data,
        ("." ++ "\x27)" ++ ")").data, ?_⟩
      simp [errStr, errRepr, non200Message, String.data_append, List.append_assoc]
  · intro e hhttp
    refine ⟨?_, ?_⟩
    · simp [get_api_answer, hhttp]
    · refine ⟨("(\x27" ++ beginRequestMessage ++ "\x27, ").data, (")").data, ?_⟩
      simp [errStr, String.data_append, List.append_assoc]

/-- Claim C5, witness: scenario D's 503 response and a concrete
transport failure. -/
theorem c5_get_api_answer_witness :
    ((get_api_answer 0 (PyVal.int 1) (fun _ => HttpOutcome.success resp503)).result =
      .error (.incorrectAPIResponse beginRequestMessage
        (some (errRepr (.incorrectAPIResponse (non200Message resp503) Option.none)))) ∧
      strHas (errStr (.incorrectAPIResponse beginRequestMessage
          (some (errRepr (.incorrectAPIResponse (non200Message resp503) Option.none)))))
        (toString resp503.status_code) ∧
      strHas (errStr (.incorrectAPIResponse beginRequestMessage
          (some (errRepr (.incorrectAPIResponse (non200Message resp503) Option.none)))))
        resp503.reason ∧
      strHas (errStr (.incorrectAPIResponse beginRequestMessage
          (some (errRepr (.incorrectAPIResponse (non200Message resp503) Option.none)))))
        resp503.text) ∧
    ((get_api_answer 0 (PyVal.int 1)
        (fun _ => HttpOutcome.failure (PyErr.requestError "timeout"))).result =
      .error (.incorrectAPIResponse beginRequestMessage
        (some (errRepr (PyErr.requestError "timeout")))) ∧
      strHas (errStr (.incorrectAPIResponse beginRequestMessage
          (some (errRepr (PyErr.requestError "timeout")))))
        (errRepr (PyErr.requestError "timeout"))) :=
  ⟨(c5_get_api_answer_errors 0 (PyVal.int 1) (fun _ => HttpOutcome.success resp503)).1
      resp503 rfl (by decide),
   (c5_get_api_answer_errors 0 (PyVal.int 1)
      (fun _ => HttpOutcome.failure (PyErr.requestError "timeout"))).2
      (PyErr.requestError "timeout") rfl⟩

/-- Claim C6, counterexample: a client failure that is not a
`TelegramError` (here a `ValueError`) propagates out of `send_message`,
so the function does not return normally for every behaviour of the
chat-bot client. -/
theorem c6_notify_counterexample :
    send_message (ClientOutcome.raise (PyErr.valueError "boom")) "hi" =
      Except.error (PyErr.valueError "boom") := rfl

/-- Claim C6, amended: `send_message` returns normally — with a
delivery failure only logged — whenever the client either delivers or
fails with its own error type `TelegramError`, the only exception type
the function catches; any other exception type propagates to the
caller unchanged. -/
theorem c6_notify_amended (o : ClientOutcome) (m : String) :
    (clientBenign o = true → ∃ b : Bool, send_message o m = .ok b) ∧
    (∀ e, clientBenign (ClientOutcome.raise e) = false →
      send_message (ClientOutcome.raise e) m = .error e) := by
  constructor
  · exact send_message_benign o m
  · intro e he
    cases e <;> first | rfl | simp [clientBenign] at he

/-- Claim C6, witness: delivery, a caught `TelegramError`, and a
propagating `ValueError`. -/
theorem c6_notify_witness :
    (∃ b : Bool, send_message ClientOutcome.ok "Bot starts operation" = .ok b) ∧
    (∃ b : Bool, send_message (ClientOutcome.raise (PyErr.telegramError "down"))
      "Bot starts operation" = .ok b) ∧
    send_message (ClientOutcome.raise (PyErr.valueError "boom")) "Bot starts operation" =
      .error (PyErr.valueError "boom") :=
  ⟨(c6_notify_amended ClientOutcome.ok "Bot starts operation").1 rfl,
   (c6_notify_amended (ClientOutcome.raise (PyErr.telegramError "down"))
      "Bot starts operation").1 rfl,
   (c6_notify_amended ClientOutcome.ok "Bot starts operation").2
      (PyErr.valueError "boom") rfl⟩

/-- Claim C7 (confirmed): under a client raising at most its own
`TelegramError`, every iteration sleeps (the `finally` clause runs on
both paths) and nothing escapes the loop; when the
fetch/validate/translate pipeline raises `e`, the iteration's message
is the diagnostic `Сбой в работе программы: {e}`, it is sent exactly
when it differs from `prev_msg`, and `prev_msg` then tracks it. -/
theorem c7_loop_error_handling (st : LoopState) (inp : IterInput)
    (h1 : clientBenign inp.sendOutcome1 = true)
    (h2 : clientBenign inp.sendOutcome2 = true) :
    (runIter st inp).slept = true ∧
    (runIter st inp).crashed = Option.none ∧
    (∀ e, (iterPipeline st inp).2 = .error e →
      iterMessage st inp = diagMessage e ∧
      (runIter st inp).sends =
        (if diagMessage e ≠ st.prev_msg then [diagMessage e] else []) ∧
      (runIter st inp).state.prev_msg = diagMessage e) := by
  have H := runIter_benign st inp h1 h2
  refine ⟨by rw [H], by rw [H], ?_⟩
  intro e he
  have hm : iterMessage st inp = diagMessage e := by
    unfold iterMessage
    rw [he]
  refine ⟨hm, ?_, ?_⟩
  · rw [H]
    simp [hm]
  · rw [H]
    simpa using hm

/-- Claim C7, witness: a transport failure is converted into the
diagnostic, sent once from a fresh state, and the iteration sleeps. -/
theorem c7_loop_error_handling_witness :
    (runIter ⟨PyVal.int 1, ""⟩ failInput).slept = true ∧
    (runIter ⟨PyVal.int 1, ""⟩ failInput).crashed = Option.none ∧
    (iterMessage ⟨PyVal.int 1, ""⟩ failInput =
        diagMessage (.incorrectAPIResponse beginRequestMessage
          (some (errRepr (.requestError "timeout")))) ∧
      (runIter ⟨PyVal.int 1, ""⟩ failInput).sends =
        (if diagMessage (.incorrectAPIResponse beginRequestMessage
            (some (errRepr (.requestError "timeout")))) ≠
            (⟨PyVal.int 1, ""⟩ : LoopState).prev_msg then
          [diagMessage (.incorrectAPIResponse beginRequestMessage
            (some (errRepr (.requestError "timeout"))))]
        else []) ∧
      (runIter ⟨PyVal.int 1, ""⟩ failInput).state.prev_msg =
        diagMessage (.incorrectAPIResponse beginRequestMessage
          (some (errRepr (.requestError "timeout"))))) :=
  ⟨(c7_loop_error_handling ⟨PyVal.int 1, ""⟩ failInput rfl rfl).1,
   (c7_loop_error_handling ⟨PyVal.int 1, ""⟩ failInput rfl rfl).2.1,
   (c7_loop_error_handling ⟨PyVal.int 1, ""⟩ failInput rfl rfl).2.2 _ rfl⟩

/-- Claim C8 (confirmed): with any of the three credentials missing,
startup exits with status 1 and the fixed fatal message, attempting no
send (and no fetch: requests happen only inside the loop, never on this
path); with all three present and a benign client, startup attempts
exactly the fixed `Bot starts operation` notification and enters the
loop with the cursor at the current time and an empty `prev_msg`. -/
theorem c8_startup (env : Env) (nowSec : Int) (o : ClientOutcome) :
    ((envTruthy env.PRACTICUM_TOKEN = false ∨ envTruthy env.TELEGRAM_TOKEN = false ∨
        envTruthy env.TELEGRAM_CHAT_ID = false) →
      mainStartup env nowSec o = .exited 1 "No token. Bot operation stopped!" ∧
      startupSends (mainStartup env nowSec o) = []) ∧
    (check_tokens env = true → clientBenign o = true →
      mainStartup env nowSec o =
        .running ⟨PyVal.int nowSec, ""⟩ ["Bot starts operation"]) := by
  constructor
  · intro h
    have hct : check_tokens env = false := by
      unfold check_tokens
      rcases h with h | h | h <;> simp [h]
    constructor
    · simp [mainStartup, hct]
    · simp [mainStartup, hct, startupSends]
  · intro hct hb
    obtain ⟨b, hbm⟩ := send_message_benign o "Bot starts operation" hb
    simp [mainStartup, hct, hbm]

/-- Claim C8, witness: scenario E's missing bot token, and a full
credential set. -/
theorem c8_startup_witness :
    (mainStartup ⟨some "p", Option.none, some "c"⟩ 42 ClientOutcome.ok =
        .exited 1 "No token. Bot operation stopped!" ∧
      startupSends (mainStartup ⟨some "p", Option.none, some "c"⟩ 42 ClientOutcome.ok) =
        []) ∧
    mainStartup ⟨some "p", some "t", some "c"⟩ 42 ClientOutcome.ok =
      .running ⟨PyVal.int 42, ""⟩ ["Bot starts operation"] :=
  ⟨(c8_startup ⟨some "p", Option.none, some "c"⟩ 42 ClientOutcome.ok).1
      (Or.inr (Or.inl rfl)),
   (c8_startup ⟨some "p", some "t", some "c"⟩ 42 ClientOutcome.ok).2 rfl rfl⟩

/-- Claim C9 (confirmed): `timeline = load or time.time_ns()` replaces
a falsy cursor (`0` or `None`) by the current time in nanoseconds, so a
`from_date=0` request is never issued; a truthy integer cursor is sent
unchanged; and the substituted nanosecond reading differs from the
seconds-based clock value used for the cursor everywhere else in the
loop. -/
theorem c9_falsy_cursor (nowNs nowSec frac : Int) (http : PyVal → HttpOutcome)
    (hfrac₀ : 0 ≤ frac) (hfrac₁ : frac < 1000000000)
    (hns : nowNs = nowSec * 1000000000 + frac) (hsec : 0 < nowSec) :
    (get_api_answer nowNs (PyVal.int 0) http).from_date = PyVal.int nowNs ∧
    (get_api_answer nowNs PyVal.none http).from_date = PyVal.int nowNs ∧
    (∀ T : Int, T ≠ 0 →
      (get_api_answer nowNs (PyVal.int T) http).from_date = PyVal.int T) ∧
    (get_api_answer nowNs (PyVal.int 0) http).from_date ≠ PyVal.int 0 ∧
    nowNs ≠ nowSec := by
  have hpos : 0 < nowNs := by omega
  refine ⟨?_, ?_, ?_, ?_, ?_⟩
  · simp [get_api_answer, pyTruthy]
  · simp [get_api_answer, pyTruthy]
  · intro T hT
    simp [get_api_answer, pyTruthy, hT]
  · have h1 : (get_api_answer nowNs (PyVal.int 0) http).from_date = PyVal.int nowNs := by
      simp [get_api_answer, pyTruthy]
    rw [h1]
    simp only [ne_eq, PyVal.int.injEq]
    omega
  · omega

/-- Claim C9, witness: a concrete nanosecond clock reading two seconds
and five nanoseconds after the epoch. -/
theorem c9_falsy_cursor_witness :
    (get_api_answer 2000000005 (PyVal.int 0)
      (fun _ => HttpOutcome.failure (PyErr.requestError "x"))).from_date =
      PyVal.int 2000000005 ∧
    (get_api_answer 2000000005 PyVal.none
      (fun _ => HttpOutcome.failure (PyErr.requestError "x"))).from_date =
      PyVal.int 2000000005 ∧
    (get_api_answer 2000000005 (PyVal.int 1000)
      (fun _ => HttpOutcome.failure (PyErr.requestError "x"))).from_date =
      PyVal.int 1000 ∧
    (get_api_answer 2000000005 (PyVal.int 0)
      (fun _ => HttpOutcome.failure (PyErr.requestError "x"))).from_date ≠
      PyVal.int 0 ∧
    (2000000005 : Int) ≠ 2 := by
  have t := c9_falsy_cursor 2000000005 2 5
    (fun _ => HttpOutcome.failure (PyErr.requestError "x"))
    (by norm_num) (by norm_num) (by norm_num) (by norm_num)
  exact ⟨t.1, t.2.1, t.2.2.1 1000 (by norm_num), t.2.2.2.1, t.2.2.2.2⟩

/-- Claim C10 (confirmed): a credential environment variable set to the
empty string is treated exactly like an absent one — `check_tokens` is
false by Python truthiness, so startup terminates fatally even though
the variable exists. -/
theorem c10_empty_credential (env : Env) (nowSec : Int) (o : ClientOutcome)
    (h : env.PRACTICUM_TOKEN = some "" ∨ env.TELEGRAM_TOKEN = some "" ∨
      env.TELEGRAM_CHAT_ID = some "") :
    check_tokens env = false ∧
    mainStartup env nowSec o = .exited 1 "No token. Bot operation stopped!" := by
  have hct : check_tokens env = false := by
    unfold check_tokens
    rcases h with h | h | h <;> simp [h, envTruthy]
  exact ⟨hct, by simp [mainStartup, hct]⟩

/-- Claim C10, witness: a bot token present but empty. -/
theorem c10_empty_credential_witness :
    check_tokens ⟨some "p", some "", some "c"⟩ = false ∧
    mainStartup ⟨some "p", some "", some "c"⟩ 42 ClientOutcome.ok =
      .exited 1 "No token. Bot operation stopped!" :=
  c10_empty_credential ⟨some "p", some "", some "c"⟩ 42 ClientOutcome.ok
    (Or.inr (Or.inl rfl))
